import Mathlib

/-!
Shallow embedding of `src/lib/idevjsClient.js` (the iDevJS SDK client) and
proofs about its request pipeline, response classification, token lifecycle
and parameter validation.

JavaScript values that flow through the client are modelled by the `Json`
inductive; `undefined` is modelled as `Option.none` wherever a value may be
absent.  Fallible synchronous code (the `_enforce` validator, the client
constructor) returns `Except IDevJSError`; the response classifier returns
an `ApiResult` that also has an explicit `jsCrash` case for the places
where the JavaScript would throw a `TypeError` (member access on
`undefined`/`null`), so no behaviour is silently invented there.
-/

namespace Idevjs

/-- A JSON value, the domain of `JSON.parse` results and of the untyped
JavaScript values the client passes around.  Numbers are modelled as `Int`
(every numeric literal in the source and the claims is an integer). -/
inductive Json where
  | null : Json
  | bool (b : Bool) : Json
  | num (n : Int) : Json
  | str (s : String) : Json
  | arr (elems : List Json) : Json
  | obj (fields : List (String × Json)) : Json
  deriving Repr

/-- JavaScript truthiness of a defined value (`undefined` is handled by
`truthyOpt`): `null`, `false`, `0` and `""` are falsy, everything else
(including empty arrays and objects) is truthy. -/
def truthyJ : Json → Bool
  | .null => false
  | .bool b => b
  | .num n => n != 0
  | .str s => s != ""
  | .arr _ => true
  | .obj _ => true

/-- JavaScript truthiness of a possibly-`undefined` value. -/
def truthyOpt : Option Json → Bool
  | none => false
  | some v => truthyJ v

/-- `x || y` for a possibly-`undefined` `x` (used for `payload.data || payload`
and `options.version || DEFAULT_VERSION`). -/
def jsOrJ (x : Option Json) (y : Json) : Json :=
  match x with
  | some v => if truthyJ v then v else y
  | none => y

/-- `x || y` for a possibly-absent string (used for
`options.contentType || 'application/json'`): the empty string is falsy. -/
def jsOrStr (x : Option String) (y : String) : String :=
  match x with
  | some s => if s = "" then y else s
  | none => y

mutual
/-- JavaScript `String(v)` coercion for a defined JSON value, as used by
string concatenation and template literals in the source. -/
def jsStr : Json → String
  | .str s => s
  | .num n => toString n
  | .bool true => "true"
  | .bool false => "false"
  | .null => "null"
  | .arr xs => jsStrList xs
  | .obj _ => "[object Object]"

/-- `Array.prototype.toString`: elements joined with commas. -/
def jsStrList : List Json → String
  | [] => ""
  | [x] => jsStr x
  | x :: y :: xs => jsStr x ++ "," ++ jsStrList (y :: xs)
end

/-- `String(v)` coercion of a possibly-`undefined` value
(`'Bearer ' + this._accessToken` coerces `undefined` to `"undefined"`). -/
def jsStrOpt : Option Json → String
  | none => "undefined"
  | some v => jsStr v

/-- Property access `v.key` on a JavaScript value: throws (`Except.error`)
on `null`, looks the key up on objects, and yields `undefined` (`none`) on
every other defined value.  Access on `undefined` itself never reaches this
function; the call sites handle it. -/
def getMember : Json → String → Except Unit (Option Json)
  | .null, _ => .error ()
  | .obj fields, key => .ok (List.lookup key fields)
  | _, _ => .ok none

/-- Index access `v[0]` on a possibly-`undefined` value
(`payload.errors[0]` in `_makeRequest`): throws on `undefined` and `null`,
takes the head of an array, key `"0"` of an object, the first character of
a string, and is `undefined` on numbers and booleans. -/
def jsIndexZero : Option Json → Except Unit (Option Json)
  | none => .error ()
  | some .null => .error ()
  | some (.arr xs) => .ok xs.head?
  | some (.obj fields) => .ok (List.lookup "0" fields)
  | some (.str s) =>
      .ok (match s.data with
           | [] => none
           | c :: _ => some (.str (String.singleton c)))
  | some (.num _) => .ok none
  | some (.bool _) => .ok none

/-- `const DEFAULT_ERROR_CODE = -1` (line 8). -/
def DEFAULT_ERROR_CODE : Int := -1

/-- `const DEFAULT_TIMEOUT_MS = 5000` (line 9). -/
def DEFAULT_TIMEOUT_MS : Nat := 5000

/-- `const BASE_URI = 'api.idevjs.com'` (line 10). -/
def BASE_URI : String := "api.idevjs.com"

/-- `const DEFAULT_VERSION = 'v1'` (line 11). -/
def DEFAULT_VERSION : String := "v1"

/-- `IDevJSError` (lines 304-308): an error value with a `message` and a
`code`.  Both fields are possibly-`undefined` JavaScript values because the
constructor stores whatever it is given (`payload.errors[0].message` may be
`undefined`). -/
structure IDevJSError where
  message : Option Json
  code : Option Json
  deriving Repr

/-- `new IDevJSError(m, c)` at the call sites that pass a string literal
and a numeric code. -/
def mkErr (m : String) (c : Int) : IDevJSError :=
  ⟨some (.str m), some (.num c)⟩

/-- The outcome delivered to a `NodeCallback`: success with a JSON value
(`callback(null, v)`), an error (`callback(e, null)`), or a thrown
`TypeError` inside the response handler (`jsCrash`), in which case the
callback is never invoked. -/
inductive ApiResult where
  | ok (v : Json) : ApiResult
  | error (e : IDevJSError) : ApiResult
  | jsCrash : ApiResult
  deriving Repr

/-- The mutable state of an `IDevJSClient` instance after construction
(lines 69-76): `_version`, `_clientId`, `_clientSecret`, `_accessToken`.
`clientId`/`clientSecret` are possibly-`undefined` raw option values;
`accessToken` starts as the string `""`. -/
structure ClientState where
  version : Json
  clientId : Option Json
  clientSecret : Option Json
  accessToken : Option Json
  deriving Repr

/-- `_enforce(options, requiredKeys)` (lines 287-294): throws
`'Parameters for this call are undefined'` when `options` is absent, and
`'Missing required parameter "k"'` for the first required key whose value
is falsy (absent, `null`, `false`, `0`, `""`, ...). -/
def enforce (options : Option (List (String × Json))) (requiredKeys : List String) :
    Except IDevJSError Unit :=
  match options with
  | none => .error (mkErr "Parameters for this call are undefined" DEFAULT_ERROR_CODE)
  | some o =>
      requiredKeys.forM (fun k =>
        if truthyOpt (List.lookup k o) then .ok ()
        else .error (mkErr ("Missing required parameter \"" ++ k ++ "\"") DEFAULT_ERROR_CODE))

/-- The `IDevJSClient` constructor (lines 69-76): enforces `clientId` and
`clientSecret`, stores the options fields and initialises the access token
to the empty string. -/
def mkClient (options : Option (List (String × Json))) : Except IDevJSError ClientState :=
  match enforce options ["clientId", "clientSecret"] with
  | .error e => .error e
  | .ok () =>
      let o := options.getD []
      .ok { version := jsOrJ (List.lookup "version" o) (.str DEFAULT_VERSION)
            clientId := List.lookup "clientId" o
            clientSecret := List.lookup "clientSecret" o
            accessToken := some (.str "") }

/-- `setAccessToken(token)` (lines 84-87): overwrites the stored token
(the source returns `this` for chaining; the new state is that result). -/
def setAccessToken (c : ClientState) (token : Json) : ClientState :=
  { c with accessToken := some token }

/-- The options object passed to `_makeRequest` (method, path, optional
contentType, optional data that is either a pre-encoded string or an
object to be JSON-stringified). -/
inductive JsData where
  | str (s : String) : JsData
  | obj (fields : List (String × Option Json)) : JsData
  deriving Repr

structure RequestDescriptor where
  method : String
  path : String
  contentType : Option String
  data : Option JsData
  deriving Repr

/-! ### `querystring` and `url.format` (Node built-ins used on lines 98-109 and 157) -/

/-- UTF-8 encoding of a character, as a list of byte values. -/
def utf8Bytes (c : Char) : List Nat :=
  let n := c.toNat
  if n < 128 then [n]
  else if n < 2048 then [192 + n / 64, 128 + n % 64]
  else if n < 65536 then [224 + n / 4096, 128 + (n / 64) % 64, 128 + n % 64]
  else [240 + n / 262144, 128 + (n / 4096) % 64, 128 + (n / 64) % 64, 128 + n % 64]

/-- Uppercase hexadecimal digit. -/
def hexDigit (n : Nat) : Char :=
  if n < 10 then Char.ofNat (48 + n) else Char.ofNat (55 + n)

/-- Bytes `querystring.escape` leaves unescaped (the `encodeURIComponent`
set): ASCII alphanumerics and `- . _ ~ ! * ' ( )`. -/
def isUnreservedByte (n : Nat) : Bool :=
  (65 ≤ n && n ≤ 90) || (97 ≤ n && n ≤ 122) || (48 ≤ n && n ≤ 57) ||
  n == 45 || n == 46 || n == 95 || n == 126 ||
  n == 33 || n == 42 || n == 39 || n == 40 || n == 41

def escapeByte (n : Nat) : String :=
  if isUnreservedByte n then String.singleton (Char.ofNat n)
  else "%" ++ String.singleton (hexDigit (n / 16)) ++ String.singleton (hexDigit (n % 16))

/-- `querystring.escape` / `encodeURIComponent`: percent-encode every
UTF-8 byte outside the unreserved set, uppercase hex. -/
def qsEscape (s : String) : String :=
  String.join (s.data.map (fun c => String.join ((utf8Bytes c).map escapeByte)))

/-- How `querystring.stringify` renders a primitive value: strings,
numbers and booleans via `String(v)`; `undefined`, `null`, objects render
as the empty string. -/
def qsPrimStr : Option Json → String
  | some (.str s) => s
  | some (.num n) => toString n
  | some (.bool true) => "true"
  | some (.bool false) => "false"
  | _ => ""

/-- One `key=value` pair of `querystring.stringify`; an array value
produces one pair per element under the same key. -/
def qsPair (k : String) (v : Option Json) : String :=
  match v with
  | some (.arr xs) =>
      String.intercalate "&" (xs.map (fun x => qsEscape k ++ "=" ++ qsEscape (qsPrimStr (some x))))
  | _ => qsEscape k ++ "=" ++ qsEscape (qsPrimStr v)

/-- `querystring.stringify` over the fields of an object in order. -/
def qsStringify (params : List (String × Option Json)) : String :=
  String.intercalate "&" (params.map (fun kv => qsPair kv.1 kv.2))

/-- `url.format({protocol, host, pathname, query})` for the shape used on
lines 98-109: `protocol://host pathname ? stringified-query`. -/
def urlFormat (protocol host pathname : String) (query : List (String × Option Json)) : String :=
  protocol ++ "://" ++ host ++ pathname ++ "?" ++ qsStringify query

/-! ### Response classification and transport handling (`_makeRequest`, lines 229-285) -/

/-- The `res.on('end')` handler (lines 242-262), after `JSON.parse` has
been applied to the accumulated body text: `parsed = none` models a body
that is not valid JSON (the `catch` branch).  Status family is
`statusCode / 100`; family 4/5 reads `payload.errors[0]`; family 2
delivers `payload.data || payload`; anything else is `Unexpected
response`.  `jsCrash` marks the places where the JavaScript throws a
`TypeError` (e.g. `payload.errors` is absent so `undefined[0]` throws, or
`errors` is empty so `undefined.message` throws). -/
def classifyResponse (statusCode : Nat) (parsed : Option Json) : ApiResult :=
  match parsed with
  | none => .error (mkErr "Failed to parse response" DEFAULT_ERROR_CODE)
  | some payload =>
    let statusType := statusCode / 100
    if statusType = 4 ∨ statusType = 5 then
      match getMember payload "errors" with
      | .error () => .jsCrash
      | .ok errorsVal =>
        match jsIndexZero errorsVal with
        | .error () => .jsCrash
        | .ok none => .jsCrash
        | .ok (some e) =>
          match getMember e "message", getMember e "code" with
          | .error (), _ => .jsCrash
          | .ok _, .error () => .jsCrash
          | .ok m, .ok cd => .error ⟨m, cd⟩
    else if statusType = 2 then
      match getMember payload "data" with
      | .error () => .jsCrash
      | .ok d => .ok (jsOrJ d payload)
    else
      .error (mkErr "Unexpected response" DEFAULT_ERROR_CODE)

/-- What the transport delivers for one request: either the `'error'`
event (connection failure, DNS, or the timeout-triggered abort, lines
263-265 and 272-275) with the transport's message, or a complete response
(status code plus the body's parse result). -/
inductive NetEvent where
  | transportFailure (message : String) : NetEvent
  | response (statusCode : Nat) (parsed : Option Json) : NetEvent
  deriving Repr

/-- The single result `_makeRequest` hands to its callback for a given
transport event: transport failures become `IDevJSError(err.message,
DEFAULT_ERROR_CODE)` (line 264); responses go through the classifier. -/
def handleEvent : NetEvent → ApiResult
  | .transportFailure m => .error (mkErr m DEFAULT_ERROR_CODE)
  | .response statusCode parsed => classifyResponse statusCode parsed

/-! ### Outgoing request construction (`_makeRequest`, lines 230-284) -/

/-- The four headers set on lines 267-270, in order. -/
def requestHeaders (c : ClientState) (d : RequestDescriptor) : List (String × String) :=
  [("Content-Type", jsOrStr d.contentType "application/json"),
   ("Authorization", "Bearer " ++ jsStrOpt c.accessToken),
   ("Accept", "application/json"),
   ("Accept-Charset", "utf-8")]

/-- `JSON.stringify` restricted to an object whose field values may be
`undefined`: fields holding `undefined` are omitted from the serialized
object, everything else is kept verbatim. -/
def jsonStringifyObj (o : List (String × Option Json)) : List (String × Json) :=
  o.filterMap (fun kv => kv.2.map (fun v => (kv.1, v)))

/-- The body written on lines 277-283: absent or empty-string data writes
nothing (`if (options.data)` is a truthiness test); a non-empty string is
written verbatim; an object is JSON-stringified (represented by its field
list after dropping `undefined` fields). -/
inductive SerializedBody where
  | text (s : String) : SerializedBody
  | jsonObj (fields : List (String × Json)) : SerializedBody
  deriving Repr

def requestBody (d : RequestDescriptor) : Option SerializedBody :=
  match d.data with
  | none => none
  | some (.str s) => if s = "" then none else some (.text s)
  | some (.obj o) => some (.jsonObj (jsonStringifyObj o))

/-- The fully assembled outgoing request: `requestParams` of lines
230-235, the headers of lines 267-270, the timeout of line 272 and the
body of lines 277-283.  The path is the template literal
`/${this._version}${options.path}`. -/
structure BuiltRequest where
  host : String
  port : Nat
  method : String
  path : String
  headers : List (String × String)
  timeoutMs : Nat
  body : Option SerializedBody
  deriving Repr

def buildRequest (c : ClientState) (d : RequestDescriptor) : BuiltRequest :=
  { host := BASE_URI
    port := 443
    method := d.method
    path := "/" ++ jsStr c.version ++ d.path
    headers := requestHeaders c d
    timeoutMs := DEFAULT_TIMEOUT_MS
    body := requestBody d }

/-! ### Token lifecycle (`_acquireAccessToken`, lines 152-164) -/

/-- The request descriptor `_acquireAccessToken` passes to `_makeRequest`
(lines 153-157): POST `/oauth/tokens`, form-urlencoded, body
`qs.stringify(params)`. -/
def tokenRequestDescriptor (params : List (String × Option Json)) : RequestDescriptor :=
  { method := "POST"
    path := "/oauth/tokens"
    contentType := some "application/x-www-form-urlencoded"
    data := some (.str (qsStringify params)) }

/-- The wrapped callback of `_acquireAccessToken` (lines 158-163) applied
to the `_makeRequest` result: on success (`!err`) it assigns
`this._accessToken = data.access_token` and only then invokes the caller's
callback; on an error result the state is untouched.  `Except.error ()`
marks the `TypeError` thrown when the success value is `null` (member
access on `null`); when the response handler itself crashed
(`ApiResult.jsCrash`) the wrapped callback is never invoked and the state
is untouched. -/
def acquireStep (c : ClientState) (r : ApiResult) : Except Unit (ClientState × ApiResult) :=
  match r with
  | .ok v =>
      match getMember v "access_token" with
      | .error () => .error ()
      | .ok tok => .ok ({ c with accessToken := tok }, .ok v)
  | .error e => .ok (c, .error e)
  | .jsCrash => .ok (c, .jsCrash)

/-! ### The public facade (lines 97-221)

Each operation is modelled as its synchronous phase: parameter validation
followed by the construction of the request descriptor it hands to
`_makeRequest`.  An `Except.error` is a synchronously thrown
`IDevJSError`; an `Except.ok d` means the operation proceeds to the
network with request `d`. -/

/-- `getAuthorizationUrl` (lines 97-110): the query object passed to
`url.format`, in source order.  Note the parameter order of the source:
`(state, redirectUrl, requestedScope)`. -/
def authorizationQuery (c : ClientState) (state redirectUrl : String)
    (requestedScope : List String) : List (String × Option Json) :=
  [("client_id", c.clientId),
   ("scope", some (.str (String.intercalate "," requestedScope))),
   ("response_type", some (.str "code")),
   ("state", some (.str state)),
   ("redirect_uri", some (.str redirectUrl))]

def getAuthorizationUrl (c : ClientState) (state redirectUrl : String)
    (requestedScope : List String) : String :=
  urlFormat "https" BASE_URI "/oauth/authorize" (authorizationQuery c state redirectUrl requestedScope)

/-- `exchangeAuthorizationCode(code, redirectUrl)` (lines 119-127): no
validation is performed; the grant parameters are built in source order
and handed to `_acquireAccessToken`. -/
def exchangeAuthorizationCode (c : ClientState) (code redirectUrl : Option Json) :
    Except IDevJSError RequestDescriptor :=
  .ok (tokenRequestDescriptor
    [("code", code),
     ("client_id", c.clientId),
     ("client_secret", c.clientSecret),
     ("grant_type", some (.str "authorization_code")),
     ("redirect_uri", redirectUrl)])

/-- `exchangeRefreshToken(refreshToken)` (lines 135-142): no validation is
performed. -/
def exchangeRefreshToken (c : ClientState) (refreshToken : Option Json) :
    Except IDevJSError RequestDescriptor :=
  .ok (tokenRequestDescriptor
    [("refresh_token", refreshToken),
     ("client_id", c.clientId),
     ("client_secret", c.clientSecret),
     ("grant_type", some (.str "refresh_token"))])

/-- `getUser` (lines 174-179): GET `/me`, no validation, no body. -/
def getUser (_c : ClientState) : Except IDevJSError RequestDescriptor :=
  .ok { method := "GET", path := "/me", contentType := none, data := none }

/-- `getPostForUser(options)` (lines 181-187): enforces `userId`, then
GET `/users/{userId}/posts`. -/
def getPostForUser (_c : ClientState) (options : Option (List (String × Json))) :
    Except IDevJSError RequestDescriptor :=
  match enforce options ["userId"] with
  | .error e => .error e
  | .ok () =>
      let o := options.getD []
      .ok { method := "GET"
            path := "/users/" ++ jsStrOpt (List.lookup "userId" o) ++ "/posts"
            contentType := none
            data := none }

/-- The `data` object literal of `createPost` (lines 211-219), field by
field in source order; absent options fields stay `undefined`. -/
def createPostBody (o : List (String × Json)) : List (String × Option Json) :=
  [("title", List.lookup "title" o),
   ("content", List.lookup "content" o),
   ("contentFormat", List.lookup "contentFormat" o),
   ("tags", List.lookup "tags" o),
   ("canonicalUrl", List.lookup "canonicalUrl" o),
   ("publishStatus", List.lookup "publishStatus" o),
   ("license", List.lookup "license" o)]

/-- `createPost(options)` (lines 206-221): enforces `userId`, then POST
`/users/{userId}/posts` with the seven-field body object. -/
def createPost (_c : ClientState) (options : Option (List (String × Json))) :
    Except IDevJSError RequestDescriptor :=
  match enforce options ["userId"] with
  | .error e => .error e
  | .ok () =>
      let o := options.getD []
      .ok { method := "POST"
            path := "/users/" ++ jsStrOpt (List.lookup "userId" o) ++ "/posts"
            contentType := none
            data := some (.obj (createPostBody o)) }

/-- A concrete client used by witnesses and counterexamples: the state
produced by `new IDevJSClient({clientId: 'id', clientSecret: 'secret'})`. -/
def sampleClient : ClientState :=
  { version := .str "v1"
    clientId := some (.str "id")
    clientSecret := some (.str "secret")
    accessToken := some (.str "") }

/-- The body keys `createPost` may forward (lines 211-219), in source
order. -/
def postBodyKeys : List String :=
  ["title", "content", "contentFormat", "tags", "canonicalUrl", "publishStatus", "license"]

/-! ## Helper lemmas -/

/-- The key loop of `_enforce`: any error it reports carries the sentinel
code `-1`. -/
lemma enforce_loop_error_code (o : List (String × Json)) (keys : List String)
    (e : IDevJSError)
    (h : List.forM keys (fun k =>
        if truthyOpt (List.lookup k o) then Except.ok ()
        else Except.error (mkErr ("Missing required parameter \"" ++ k ++ "\"") DEFAULT_ERROR_CODE)) =
      Except.error e) :
    e.code = some (.num (-1)) := by
  induction keys with
  | nil => cases h
  | cons k ks ih =>
      simp only [List.forM_cons'] at h
      by_cases hk : truthyOpt (List.lookup k o) = true
      · simp only [if_pos hk] at h
        simp only [bind, Except.bind] at h
        exact ih h
      · simp only [if_neg hk] at h
        simp only [bind, Except.bind] at h
        cases h
        rfl

/-- Every error thrown by `_enforce` carries the sentinel code `-1`. -/
lemma enforce_error_code (options : Option (List (String × Json))) (keys : List String)
    (e : IDevJSError) (h : enforce options keys = .error e) : e.code = some (.num (-1)) := by
  cases options with
  | none =>
      simp only [enforce] at h
      cases h
      rfl
  | some o =>
      simp only [enforce] at h
      exact enforce_loop_error_code o keys e h

/-- Every error the response classifier produces with a code other than
the sentinel comes verbatim from the first element of the parsed body's
`errors` collection. -/
lemma classify_nonSentinel_source (statusCode : Nat) (parsed : Option Json) (e : IDevJSError)
    (h : classifyResponse statusCode parsed = .error e)
    (hne : e.code ≠ some (.num (-1))) :
    ∃ (payload errElem : Json) (errorsVal : Option Json),
      parsed = some payload ∧
      getMember payload "errors" = .ok errorsVal ∧
      jsIndexZero errorsVal = .ok (some errElem) ∧
      getMember errElem "message" = .ok e.message ∧
      getMember errElem "code" = .ok e.code := by
  cases parsed with
  | none =>
      simp only [classifyResponse] at h
      cases h
      exact absurd rfl hne
  | some payload =>
      simp only [classifyResponse] at h
      by_cases h45 : statusCode / 100 = 4 ∨ statusCode / 100 = 5
      · rw [if_pos h45] at h
        cases hge : getMember payload "errors" with
        | error u => simp only [hge] at h; cases h
        | ok errorsVal =>
            simp only [hge] at h
            cases hji : jsIndexZero errorsVal with
            | error u => simp only [hji] at h; cases h
            | ok idx =>
                simp only [hji] at h
                cases idx with
                | none => cases h
                | some errElem =>
                    cases hm : getMember errElem "message" with
                    | error u => simp only [hm] at h; cases h
                    | ok m =>
                        simp only [hm] at h
                        cases hc : getMember errElem "code" with
                        | error u => simp only [hc] at h; cases h
                        | ok cd =>
                            simp only [hc] at h
                            cases h
                            exact ⟨payload, errElem, errorsVal, rfl, hge, hji, hm, hc⟩
      · rw [if_neg h45] at h
        by_cases h2 : statusCode / 100 = 2
        · rw [if_pos h2] at h
          cases hgd : getMember payload "data" with
          | error u => simp only [hgd] at h; cases h
          | ok d => simp only [hgd] at h; cases h
        · rw [if_neg h2] at h
          cases h
          exact absurd rfl hne

end Idevjs

namespace Idevjs

/-! ## Claims -/

/-- C1 (counterexample): the claim "the result equals the parsed body's
`data` field whenever that field is present" fails: for a 2xx response
whose body is `{"data": false}` the `data` field is present, yet
`payload.data || payload` delivers the whole parsed body because `false`
is falsy, not the `data` field. -/
theorem claimC1_counterexample :
    classifyResponse 200 (some (Json.obj [("data", Json.bool false)])) =
      ApiResult.ok (Json.obj [("data", Json.bool false)]) ∧
    classifyResponse 200 (some (Json.obj [("data", Json.bool false)])) ≠
      ApiResult.ok (Json.bool false) := by
  refine ⟨rfl, ?_⟩
  intro h
  rw [show classifyResponse 200 (some (Json.obj [("data", Json.bool false)])) =
      ApiResult.ok (Json.obj [("data", Json.bool false)]) from rfl] at h
  simp at h

/-- C1 (amended): for every 2xx response whose body parses as JSON, the
delivered result is the parsed body's `data` field whenever that field is
present and truthy in the JavaScript sense; when `data` is absent or falsy
(`null`, `false`, `0`, `""`) the result is the whole parsed body. -/
theorem claimC1 :
    (∀ (statusCode : Nat) (payload v : Json),
       statusCode / 100 = 2 →
       getMember payload "data" = .ok (some v) →
       truthyJ v = true →
       classifyResponse statusCode (some payload) = .ok v) ∧
    (∀ (statusCode : Nat) (payload : Json) (d : Option Json),
       statusCode / 100 = 2 →
       getMember payload "data" = .ok d →
       truthyOpt d = false →
       classifyResponse statusCode (some payload) = .ok payload) := by
  constructor
  · intro statusCode payload v h2 hd ht
    simp only [classifyResponse]
    rw [if_neg (by rw [h2]; rintro (h | h) <;> cases h), if_pos h2]
    simp only [hd, jsOrJ, ht, if_pos]
  · intro statusCode payload d h2 hd ht
    simp only [classifyResponse]
    rw [if_neg (by rw [h2]; rintro (h | h) <;> cases h), if_pos h2]
    cases d with
    | none => simp only [hd, jsOrJ]
    | some v =>
        simp only [truthyOpt] at ht
        simp only [hd, jsOrJ, ht, if_neg, Bool.false_eq_true, ite_false]

/-- C1 witness: instances of both parts of the amended claim. -/
theorem claimC1_witness :
    classifyResponse 200 (some (Json.obj [("data", Json.num 7)])) = ApiResult.ok (Json.num 7) ∧
    classifyResponse 299 (some (Json.obj [("x", Json.num 1)])) =
      ApiResult.ok (Json.obj [("x", Json.num 1)]) :=
  ⟨claimC1.1 200 (Json.obj [("data", Json.num 7)]) (Json.num 7) rfl rfl rfl,
   claimC1.2 299 (Json.obj [("x", Json.num 1)]) none rfl rfl rfl⟩

/-- C2: a successful token acquisition stores the response's
`access_token` in the client state handed on with the result (the
assignment happens in the wrapped callback before the caller's callback
runs), and a failed acquisition leaves the state exactly as it was. -/
theorem claimC2 :
    (∀ (c : ClientState) (v : Json) (tok : Option Json),
       getMember v "access_token" = .ok tok →
       acquireStep c (.ok v) = .ok ({ c with accessToken := tok }, .ok v)) ∧
    (∀ (c : ClientState) (e : IDevJSError),
       acquireStep c (.error e) = .ok (c, .error e)) := by
  constructor
  · intro c v tok htok
    simp only [acquireStep, htok]
  · intro c e
    rfl

/-- C2 witness: a concrete successful exchange stores the token `"tok"`
over the initial empty-string token. -/
theorem claimC2_witness :
    acquireStep sampleClient (.ok (Json.obj [("access_token", Json.str "tok")])) =
      .ok ({ sampleClient with accessToken := some (Json.str "tok") },
           .ok (Json.obj [("access_token", Json.str "tok")])) :=
  claimC2.1 sampleClient (Json.obj [("access_token", Json.str "tok")]) (some (Json.str "tok")) rfl

/-- C3: a 4xx/5xx response whose JSON body has a non-empty `errors` array
yields the error whose message and code are those of the array's first
element. -/
theorem claimC3 :
    ∀ (statusCode : Nat) (payload e : Json) (rest : List Json) (m : String) (cd : Int),
      (statusCode / 100 = 4 ∨ statusCode / 100 = 5) →
      getMember payload "errors" = .ok (some (.arr (e :: rest))) →
      getMember e "message" = .ok (some (.str m)) →
      getMember e "code" = .ok (some (.num cd)) →
      classifyResponse statusCode (some payload) = .error (mkErr m cd) := by
  intro statusCode payload e rest m cd h45 herrs hmsg hcd
  simp only [classifyResponse]
  rw [if_pos h45]
  simp only [herrs, jsIndexZero, List.head?, hmsg, hcd, mkErr]

/-- C3 witness: the claim's own example, a 404 with body
`{"errors":[{"message":"Not Found","code":404}]}`. -/
theorem claimC3_witness :
    classifyResponse 404
      (some (Json.obj [("errors",
        Json.arr [Json.obj [("message", Json.str "Not Found"), ("code", Json.num 404)]])])) =
      .error (mkErr "Not Found" 404) :=
  claimC3 404
    (Json.obj [("errors",
      Json.arr [Json.obj [("message", Json.str "Not Found"), ("code", Json.num 404)]])])
    (Json.obj [("message", Json.str "Not Found"), ("code", Json.num 404)])
    [] "Not Found" 404 (Or.inl rfl) rfl rfl rfl

/-- C4: a body that is not valid JSON yields
`IDevJSError('Failed to parse response', -1)` for every status code —
the parse attempt is matched before the status family is ever inspected,
so the result is the same for 200, 404 and 500 alike. -/
theorem claimC4 :
    ∀ statusCode : Nat,
      classifyResponse statusCode none = .error (mkErr "Failed to parse response" (-1)) :=
  fun _ => rfl

/-- C5 (counterexample): invoking `exchangeAuthorizationCode` with both
`code` and `redirectUrl` missing, or `exchangeRefreshToken` with
`refreshToken` missing, raises no synchronous missing-parameter error at
all: both calls proceed straight to the `/oauth/tokens` network request,
form-encoding the missing fields as empty values.  The source performs no
`_enforce` call in either method (lines 119-142). -/
theorem claimC5_counterexample :
    exchangeAuthorizationCode sampleClient none none =
      .ok { method := "POST"
            path := "/oauth/tokens"
            contentType := some "application/x-www-form-urlencoded"
            data := some (.str
              "code=&client_id=id&client_secret=secret&grant_type=authorization_code&redirect_uri=") } ∧
    exchangeRefreshToken sampleClient none =
      .ok { method := "POST"
            path := "/oauth/tokens"
            contentType := some "application/x-www-form-urlencoded"
            data := some (.str
              "refresh_token=&client_id=id&client_secret=secret&grant_type=refresh_token") } :=
  ⟨rfl, rfl⟩

/-- C5 (amended): the token-exchange entry points perform no parameter
validation: for every client state and every combination of present or
missing `code`, `redirectUrl` and `refreshToken`, no synchronous error is
raised and the call proceeds to a POST `/oauth/tokens` request with a
form-urlencoded body (missing fields are encoded as empty values).  The
missing-parameter `ValidationError` is raised only by the constructor,
`getPostForUser` and `createPost`. -/
theorem claimC5 :
    ∀ (c : ClientState) (code redirectUrl refreshToken : Option Json),
      (∃ d, exchangeAuthorizationCode c code redirectUrl = .ok d ∧
            d.method = "POST" ∧ d.path = "/oauth/tokens" ∧
            d.contentType = some "application/x-www-form-urlencoded") ∧
      (∃ d, exchangeRefreshToken c refreshToken = .ok d ∧
            d.method = "POST" ∧ d.path = "/oauth/tokens" ∧
            d.contentType = some "application/x-www-form-urlencoded") :=
  fun _ _ _ _ => ⟨⟨_, rfl, rfl, rfl, rfl⟩, ⟨_, rfl, rfl, rfl, rfl⟩⟩

/-- C7: every error produced without a service-supplied code — transport
failure, unparsable body, unexpected status family, missing-parameter
validation — carries the sentinel code `-1`; and every error whose code is
not `-1` took both its code and its message verbatim from the first
element of the `errors` collection of the parsed 4xx/5xx body. -/
theorem claimC7 :
    (∀ m : String, handleEvent (.transportFailure m) = .error (mkErr m (-1))) ∧
    (∀ statusCode : Nat,
       handleEvent (.response statusCode none) = .error (mkErr "Failed to parse response" (-1))) ∧
    (∀ (statusCode : Nat) (payload : Json),
       statusCode / 100 ≠ 2 → statusCode / 100 ≠ 4 → statusCode / 100 ≠ 5 →
       handleEvent (.response statusCode (some payload)) =
         .error (mkErr "Unexpected response" (-1))) ∧
    (∀ (options : Option (List (String × Json))) (keys : List String) (e : IDevJSError),
       enforce options keys = .error e → e.code = some (.num (-1))) ∧
    (∀ (ev : NetEvent) (e : IDevJSError),
       handleEvent ev = .error e → e.code ≠ some (.num (-1)) →
       ∃ (statusCode : Nat) (payload errElem : Json) (errorsVal : Option Json),
         ev = .response statusCode (some payload) ∧
         getMember payload "errors" = .ok errorsVal ∧
         jsIndexZero errorsVal = .ok (some errElem) ∧
         getMember errElem "message" = .ok e.message ∧
         getMember errElem "code" = .ok e.code) := by
  refine ⟨fun m => rfl, fun s => rfl, ?_, enforce_error_code, ?_⟩
  · intro statusCode payload h2 h4 h5
    simp only [handleEvent, classifyResponse]
    rw [if_neg (fun h => h.elim h4 h5), if_neg h2]
    rfl
  · intro ev e h hne
    cases ev with
    | transportFailure m =>
        simp only [handleEvent] at h
        cases h
        exact absurd rfl hne
    | response statusCode parsed =>
        obtain ⟨payload, errElem, errorsVal, hp, hge, hji, hm, hc⟩ :=
          classify_nonSentinel_source statusCode parsed e h hne
        exact ⟨statusCode, payload, errElem, errorsVal, by rw [hp], hge, hji, hm, hc⟩

/-- C7 witness: an unexpected status family (301) carries the sentinel,
and so does the undefined-options validation error. -/
theorem claimC7_witness :
    handleEvent (.response 301 (some (Json.obj []))) =
      .error (mkErr "Unexpected response" (-1)) ∧
    (mkErr "Parameters for this call are undefined" (-1)).code = some (Json.num (-1)) :=
  ⟨claimC7.2.2.1 301 (Json.obj []) (by decide) (by decide) (by decide),
   claimC7.2.2.2.1 none ["userId"] (mkErr "Parameters for this call are undefined" (-1)) rfl⟩

/-- C6 (counterexample): the claim's argument order
`(redirectUrl, requestedScopes, state)` is wrong: the source signature is
`getAuthorizationUrl(state, redirectUrl, requestedScope)` (line 97).  With
the two string arguments given as "A" then "B", the query binds `state` to
the first argument and `redirect_uri` to the second — so the URL the claim
predicts (with `state=B` and `redirect_uri=A`) is not the one produced. -/
theorem claimC6_counterexample :
    List.lookup "state" (authorizationQuery sampleClient "A" "B" ["s"]) =
      some (some (Json.str "A")) ∧
    List.lookup "redirect_uri" (authorizationQuery sampleClient "A" "B" ["s"]) =
      some (some (Json.str "B")) ∧
    getAuthorizationUrl sampleClient "A" "B" ["s"] ≠
      "https://api.idevjs.com/oauth/authorize?client_id=id&scope=s&response_type=code&state=B&redirect_uri=A" :=
  ⟨rfl, rfl, by decide⟩

/-- C6 (amended): `getAuthorizationUrl`, taking its arguments in the order
`(state, redirectUrl, requestedScopes)`, is pure string construction (it
performs no network call — it is a plain function from the client state
and its arguments to a `String`) and returns an https URL to the
authorization endpoint whose query sets `client_id` to the client's id,
`scope` to the comma-join of `requestedScopes`, `response_type` to
`"code"`, `state` to the given state (the first argument), and
`redirect_uri` to the given redirectUrl (the second argument). -/
theorem claimC6 :
    ∀ (c : ClientState) (state redirectUrl : String) (requestedScope : List String),
      getAuthorizationUrl c state redirectUrl requestedScope =
        "https://" ++ BASE_URI ++ "/oauth/authorize?" ++
          qsStringify (authorizationQuery c state redirectUrl requestedScope) ∧
      List.lookup "client_id" (authorizationQuery c state redirectUrl requestedScope) =
        some c.clientId ∧
      List.lookup "scope" (authorizationQuery c state redirectUrl requestedScope) =
        some (some (.str (String.intercalate "," requestedScope))) ∧
      List.lookup "response_type" (authorizationQuery c state redirectUrl requestedScope) =
        some (some (.str "code")) ∧
      List.lookup "state" (authorizationQuery c state redirectUrl requestedScope) =
        some (some (.str state)) ∧
      List.lookup "redirect_uri" (authorizationQuery c state redirectUrl requestedScope) =
        some (some (.str redirectUrl)) :=
  fun _ _ _ _ => ⟨rfl, rfl, rfl, rfl, rfl, rfl⟩

/-- C8: every outgoing request carries exactly the four headers of lines
267-270 — Content-Type (the descriptor's, defaulting to application/json
when absent), Authorization with the Bearer token currently stored (the
empty string before any token is set), Accept, and Accept-Charset.  The
hypotheses record what holds of every descriptor the client actually
builds: the stored token is a string and a contentType, when present, is
non-empty. -/
theorem claimC8 :
    ∀ (c : ClientState) (d : RequestDescriptor) (t : String),
      c.accessToken = some (.str t) →
      (∀ s, d.contentType = some s → s ≠ "") →
      (buildRequest c d).headers =
        [("Content-Type", d.contentType.getD "application/json"),
         ("Authorization", "Bearer " ++ t),
         ("Accept", "application/json"),
         ("Accept-Charset", "utf-8")] := by
  intro c d t htok hct
  simp only [buildRequest, requestHeaders, htok, jsStrOpt, jsStr]
  cases hd : d.contentType with
  | none => simp [jsOrStr]
  | some s => simp [jsOrStr, hct s hd]

/-- C8 witness: the token request of a fresh client (empty-string token,
form-urlencoded content type). -/
theorem claimC8_witness :
    (buildRequest sampleClient
      { method := "POST", path := "/oauth/tokens",
        contentType := some "application/x-www-form-urlencoded", data := none }).headers =
      [("Content-Type", "application/x-www-form-urlencoded"),
       ("Authorization", "Bearer "),
       ("Accept", "application/json"),
       ("Accept-Charset", "utf-8")] :=
  claimC8 sampleClient
    { method := "POST", path := "/oauth/tokens",
      contentType := some "application/x-www-form-urlencoded", data := none }
    "" rfl (fun s hs => by cases hs; decide)

/-- C9: the serialized `createPost` body is exactly the seven optional
post fields of the object passed, with the fields the caller did not
supply omitted (not defaulted) and no keys added or renamed: the request
descriptor carries the source's seven-field object literal, and its
JSON-serialization equals the restriction of the passed object to the
seven body keys. -/
theorem claimC9 :
    ∀ (c : ClientState) (o : List (String × Json)) (d : RequestDescriptor),
      createPost c (some o) = .ok d →
      d.data = some (.obj (createPostBody o)) ∧
      jsonStringifyObj (createPostBody o) =
        postBodyKeys.filterMap (fun k => (List.lookup k o).map (fun v => (k, v))) := by
  intro c o d h
  constructor
  · cases henf : enforce (some o) ["userId"] with
    | error e => simp only [createPost, henf] at h; cases h
    | ok u =>
        simp only [createPost, henf] at h
        cases h
        rfl
  · cases List.lookup "title" o <;>
    cases List.lookup "content" o <;>
    cases List.lookup "contentFormat" o <;>
    cases List.lookup "tags" o <;>
    cases List.lookup "canonicalUrl" o <;>
    cases List.lookup "publishStatus" o <;>
    cases List.lookup "license" o <;>
    rfl

/-- C9 witness: a post with only `title` and `tags` supplied serializes to
exactly those two fields. -/
theorem claimC9_witness :
    (RequestDescriptor.mk "POST" "/users/u/posts" none
        (some (.obj (createPostBody [("userId", Json.str "u"), ("title", Json.str "T"),
          ("tags", Json.arr [Json.str "a"])])))).data =
      some (.obj (createPostBody [("userId", Json.str "u"), ("title", Json.str "T"),
        ("tags", Json.arr [Json.str "a"])])) ∧
    jsonStringifyObj (createPostBody [("userId", Json.str "u"), ("title", Json.str "T"),
        ("tags", Json.arr [Json.str "a"])]) =
      postBodyKeys.filterMap
        (fun k => (List.lookup k [("userId", Json.str "u"), ("title", Json.str "T"),
          ("tags", Json.arr [Json.str "a"])]).map (fun v => (k, v))) :=
  claimC9 sampleClient
    [("userId", Json.str "u"), ("title", Json.str "T"), ("tags", Json.arr [Json.str "a"])]
    (RequestDescriptor.mk "POST" "/users/u/posts" none
      (some (.obj (createPostBody [("userId", Json.str "u"), ("title", Json.str "T"),
        ("tags", Json.arr [Json.str "a"])]))))
    rfl

/-- C10: `_enforce` treats every falsy required field as missing — a
`userId` equal to `""`, `0`, `false` or `null` makes `createPost` and
`getPostForUser` throw exactly the missing-required-parameter error that
omitting the field produces, and constructing a client with an
empty-string `clientId` or `clientSecret` fails the same way. -/
theorem claimC10 :
    createPost sampleClient (some [("userId", Json.str "")]) =
      .error (mkErr "Missing required parameter \"userId\"" (-1)) ∧
    createPost sampleClient (some [("userId", Json.num 0)]) =
      .error (mkErr "Missing required parameter \"userId\"" (-1)) ∧
    createPost sampleClient (some [("userId", Json.bool false)]) =
      .error (mkErr "Missing required parameter \"userId\"" (-1)) ∧
    createPost sampleClient (some [("userId", Json.null)]) =
      .error (mkErr "Missing required parameter \"userId\"" (-1)) ∧
    createPost sampleClient (some []) =
      .error (mkErr "Missing required parameter \"userId\"" (-1)) ∧
    getPostForUser sampleClient (some [("userId", Json.str "")]) =
      .error (mkErr "Missing required parameter \"userId\"" (-1)) ∧
    getPostForUser sampleClient (some []) =
      .error (mkErr "Missing required parameter \"userId\"" (-1)) ∧
    mkClient (some [("clientId", Json.str ""), ("clientSecret", Json.str "s")]) =
      .error (mkErr "Missing required parameter \"clientId\"" (-1)) ∧
    mkClient (some [("clientId", Json.str "i"), ("clientSecret", Json.str "")]) =
      .error (mkErr "Missing required parameter \"clientSecret\"" (-1)) :=
  ⟨rfl, rfl, rfl, rfl, rfl, rfl, rfl, rfl, rfl⟩

end Idevjs
